import Mathlib

/-!
Shallow embedding of `src/types.rs` of the rusty-tags repository: the
source-identity model (`SourceKind`), the output-format configuration
(`TagsSpec` / `TagsKind`) and the cached-artifact staleness model (`Tags`),
together with theorems settling the specification claims about them.

Paths (`std::path::PathBuf`) are modelled as their list of components;
`PathBuf::push` appends one component.  The filesystem is passed explicitly
as a map from paths to probe answers; `Path::is_file` in Rust maps every
error (not-found as well as e.g. permission denied) to `false`, which the
`is_file` model reproduces.
-/

namespace RustyTags

/-- A filesystem path, modelled as its list of components. -/
abbrev PathBuf := List String

/-- PathBuf::push appends one component to a path. -/
def push (p : PathBuf) (s : String) : PathBuf := p ++ [s]

/-- The answer the filesystem gives when the metadata of a path is probed:
either metadata is available (with a flag whether the entry is a regular
file), or the path does not exist, or the probe fails with an I/O error
such as permission denied (carried as a numeric code). -/
inductive FsAnswer where
  | found (isFile : Bool)
  | notFound
  | err (code : Nat)
deriving DecidableEq, Repr

/-- A filesystem state: the probe answer for every path. -/
abbrev Fs := PathBuf → FsAnswer

/-- Model of `std::path::Path::is_file`: true exactly when metadata is
available and names a regular file; every error, not-found or otherwise,
yields `false`. -/
def is_file (fs : Fs) (p : PathBuf) : Bool :=
  match fs p with
  | .found b => b
  | .notFound => false
  | .err _ => false

/-- enum TagsKind from src/types.rs: which kind of tags are created. -/
inductive TagsKind where
  | Vi
  | Emacs
deriving DecidableEq, Repr

/-- struct TagsSpec from src/types.rs: the kind of tags, the file name for
vi tags and the file name for emacs tags. -/
structure TagsSpec where
  kind : TagsKind
  vi_tags : String
  emacs_tags : String
deriving DecidableEq, Repr

/-- TagsSpec::new from src/types.rs: fails when the vi and emacs tags file
names are equal, otherwise returns the spec.  `AppResult` is modelled as
`Except String`. -/
def TagsSpec.new (kind : TagsKind) (vi_tags emacs_tags : String) :
    Except String TagsSpec :=
  if vi_tags = emacs_tags then
    Except.error
      ("It is not recommended to use the same tags name "
        ++ vi_tags ++ " for vi and emacs!")
  else
    Except.ok { kind := kind, vi_tags := vi_tags, emacs_tags := emacs_tags }

/-- TagsSpec::file_extension from src/types.rs. -/
def TagsSpec.file_extension (s : TagsSpec) : String :=
  match s.kind with
  | .Vi => "vi"
  | .Emacs => "emacs"

/-- TagsSpec::file_name from src/types.rs. -/
def TagsSpec.file_name (s : TagsSpec) : String :=
  match s.kind with
  | .Vi => s.vi_tags
  | .Emacs => s.emacs_tags

/-- TagsSpec::ctags_option from src/types.rs. -/
def TagsSpec.ctags_option (s : TagsSpec) : Option String :=
  match s.kind with
  | .Vi => none
  | .Emacs => some "-e"

/-- enum SourceKind from src/types.rs: where the source code of a
dependency is from. -/
inductive SourceKind where
  | Git (lib_name : String) (commit_hash : String)
  | CratesIo (lib_name : String) (version : String)
  | Path (lib_name : String) (path : PathBuf)
deriving DecidableEq, Repr

/-- SourceKind::tags_file_name from src/types.rs. -/
def SourceKind.tags_file_name (sk : SourceKind) (tags_spec : TagsSpec) :
    String :=
  match sk with
  | .Git lib_name commit_hash =>
      lib_name ++ "-" ++ commit_hash ++ "." ++ tags_spec.file_extension
  | .CratesIo lib_name version =>
      lib_name ++ "-" ++ version ++ "." ++ tags_spec.file_extension
  | .Path _ _ => tags_spec.file_name

/-- SourceKind::get_lib_name from src/types.rs. -/
def SourceKind.get_lib_name (sk : SourceKind) : String :=
  match sk with
  | .Git lib_name _ => lib_name
  | .CratesIo lib_name _ => lib_name
  | .Path lib_name _ => lib_name

/-- struct Tags from src/types.rs: source directory, tags file and the
cached flag. -/
structure Tags where
  src_dir : PathBuf
  tags_file : PathBuf
  cached : Bool
deriving DecidableEq, Repr

/-- Tags::new from src/types.rs. -/
def Tags.new (src_dir tags_file : PathBuf) (cached : Bool) : Tags :=
  { src_dir := src_dir, tags_file := tags_file, cached := cached }

/-- Tags::is_up_to_date from src/types.rs: false when not cached,
otherwise probes `src_dir` pushed with the active flavor file name. -/
def Tags.is_up_to_date (t : Tags) (tags_spec : TagsSpec) (fs : Fs) : Bool :=
  if !t.cached then
    false
  else
    is_file fs (push t.src_dir tags_spec.file_name)

/-! Helper lemmas shared by the claim theorems. -/

/-- Unfolding `is_up_to_date` to a conjunction of the cached flag and the
marker probe. -/
theorem is_up_to_date_eq (t : Tags) (spec : TagsSpec) (fs : Fs) :
    t.is_up_to_date spec fs
      = (t.cached && is_file fs (push t.src_dir spec.file_name)) := by
  unfold Tags.is_up_to_date
  cases t.cached <;> simp

/-- The marker probe succeeds exactly when the filesystem reports a regular
file at the path. -/
theorem is_file_true_iff (fs : Fs) (p : PathBuf) :
    is_file fs p = true ↔ fs p = FsAnswer.found true := by
  unfold is_file
  cases h : fs p with
  | found b => cases b <;> simp
  | notFound => simp
  | err code => simp

/-- Appending equal strings on the left preserves inequality of the right
parts. -/
theorem string_append_left_ne (a x y : String) (h : x ≠ y) :
    a ++ x ≠ a ++ y := by
  intro he
  apply h
  have hd := congrArg String.data he
  simp only [String.data_append] at hd
  exact String.ext (List.append_cancel_left hd)

/-- Two cache file names built from the same library name and extension but
different discriminators are different strings. -/
theorem string_discriminator_ne (lib d1 d2 ext : String) (h : d1 ≠ d2) :
    lib ++ "-" ++ d1 ++ "." ++ ext ≠ lib ++ "-" ++ d2 ++ "." ++ ext := by
  intro he
  apply h
  have hd := congrArg String.data he
  simp only [String.data_append, List.append_assoc] at hd
  have h1 := List.append_cancel_left (List.append_cancel_left hd)
  exact String.ext (List.append_cancel_right h1)

/-- Successful construction through `TagsSpec.new` forces the two names to
differ and determines the spec. -/
theorem spec_new_ok_inv (kind : TagsKind) (v e : String) (s : TagsSpec)
    (h : TagsSpec.new kind v e = Except.ok s) :
    v ≠ e ∧ s = { kind := kind, vi_tags := v, emacs_tags := e } := by
  unfold TagsSpec.new at h
  by_cases hve : v = e
  · simp [hve] at h
  · simp only [hve, if_false, Except.ok.injEq] at h
    exact ⟨hve, h.symm⟩

/-! Concrete values used by witness and counterexample theorems. -/

/-- A vi-flavored spec with the default rusty-tags file names. -/
def specVi : TagsSpec :=
  { kind := .Vi, vi_tags := "rusty-tags.vi", emacs_tags := "rusty-tags.emacs" }

/-- An emacs-flavored spec with the same pair of file names as `specVi`. -/
def specEmacs : TagsSpec :=
  { kind := .Emacs, vi_tags := "rusty-tags.vi", emacs_tags := "rusty-tags.emacs" }

/-- A filesystem holding exactly the vi marker file inside `["proj"]`. -/
def fsWithMarker : Fs :=
  fun p => if p = ["proj", "rusty-tags.vi"] then .found true else .notFound

/-- An empty filesystem: every probe answers not-found. -/
def fsNoMarker : Fs := fun _ => .notFound

/-- A filesystem answering permission denied (code 13) on the vi marker
inside `["proj"]` and not-found elsewhere. -/
def fsPermDenied : Fs :=
  fun p => if p = ["proj", "rusty-tags.vi"] then .err 13 else .notFound

/-! Claim theorems. -/

/-- C1: for every Tags artifact constructed with cached = true,
is_up_to_date holds exactly when the filesystem reports a regular file at
the active flavor file name pushed onto the source directory; and since
each call probes the filesystem state it is given, the same artifact under
the state in which that marker has been deleted (answering not-found
there) reports false — the probe result is not cached. -/
theorem cached_up_to_date_iff_marker (src tf : PathBuf) (spec : TagsSpec)
    (fs : Fs) :
    ((Tags.new src tf true).is_up_to_date spec fs = true ↔
      fs (push src spec.file_name) = FsAnswer.found true) ∧
    (Tags.new src tf true).is_up_to_date spec
      (fun p => if p = push src spec.file_name then FsAnswer.notFound
                else fs p) = false := by
  constructor
  · rw [is_up_to_date_eq]
    simp only [Tags.new, Bool.true_and]
    exact is_file_true_iff fs (push src spec.file_name)
  · rw [is_up_to_date_eq]
    simp [Tags.new, is_file]

/-- C2: TagsSpec::new fails (with a configuration error) exactly when the
two file names are equal, and on distinct names succeeds with the spec
whose active flavor is the requested kind. -/
theorem spec_new_ok_iff (kind : TagsKind) (x y : String) :
    ((∃ msg, TagsSpec.new kind x y = Except.error msg) ↔ x = y) ∧
    (x ≠ y → TagsSpec.new kind x y =
      Except.ok { kind := kind, vi_tags := x, emacs_tags := y }) := by
  unfold TagsSpec.new
  by_cases h : x = y <;> simp [h]

/-- C2 witness at kind Vi with the names tags and TAGS. -/
theorem spec_new_ok_iff_witness :
    ((∃ msg, TagsSpec.new TagsKind.Vi "tags" "TAGS" = Except.error msg) ↔
      ("tags" : String) = "TAGS") ∧
    (("tags" : String) ≠ "TAGS" → TagsSpec.new TagsKind.Vi "tags" "TAGS" =
      Except.ok { kind := TagsKind.Vi, vi_tags := "tags", emacs_tags := "TAGS" }) :=
  spec_new_ok_iff TagsKind.Vi "tags" "TAGS"

/-- C3: under any spec, two Git identities with the same library name but
different commit hashes have different tags file names, and likewise two
CratesIo identities with different versions. -/
theorem tags_file_name_discriminator_ne (spec : TagsSpec)
    (lib d1 d2 : String) (h : d1 ≠ d2) :
    (SourceKind.Git lib d1).tags_file_name spec ≠
      (SourceKind.Git lib d2).tags_file_name spec ∧
    (SourceKind.CratesIo lib d1).tags_file_name spec ≠
      (SourceKind.CratesIo lib d2).tags_file_name spec := by
  unfold SourceKind.tags_file_name
  exact ⟨string_discriminator_ne lib d1 d2 spec.file_extension h,
         string_discriminator_ne lib d1 d2 spec.file_extension h⟩

/-- C3 witness: serde at versions 1.0.0 and 2.0.0 under the vi spec. -/
theorem tags_file_name_discriminator_ne_witness :
    (SourceKind.Git "serde" "1.0.0").tags_file_name specVi ≠
      (SourceKind.Git "serde" "2.0.0").tags_file_name specVi ∧
    (SourceKind.CratesIo "serde" "1.0.0").tags_file_name specVi ≠
      (SourceKind.CratesIo "serde" "2.0.0").tags_file_name specVi :=
  tags_file_name_discriminator_ne specVi "serde" "1.0.0" "2.0.0" (by decide)

/-- C4: an artifact constructed with cached = false is never up to date,
under every spec and every filesystem state. -/
theorem uncached_never_up_to_date (src tf : PathBuf) (spec : TagsSpec)
    (fs : Fs) :
    (Tags.new src tf false).is_up_to_date spec fs = false := by
  rw [is_up_to_date_eq]
  simp [Tags.new]

/-- C5: for a Path identity the tags file name equals the active flavor
file name of the spec, independently of the library name and the path. -/
theorem path_tags_file_name (lib lib2 : String) (p p2 : PathBuf)
    (spec : TagsSpec) :
    (SourceKind.Path lib p).tags_file_name spec = spec.file_name ∧
    (SourceKind.Path lib p).tags_file_name spec =
      (SourceKind.Path lib2 p2).tags_file_name spec :=
  ⟨rfl, rfl⟩

/-- C6: for two specs successfully constructed from the same pair of file
names, one with kind Vi and one with kind Emacs, every source identity
gets different tags file names under the two specs — for Git and CratesIo
via the distinct flavor extensions, for Path via the construction
invariant that the two configured names differ. -/
theorem flavor_switch_names_differ (v e : String) (sv se : TagsSpec)
    (hv : TagsSpec.new TagsKind.Vi v e = Except.ok sv)
    (he : TagsSpec.new TagsKind.Emacs v e = Except.ok se)
    (sk : SourceKind) :
    sk.tags_file_name sv ≠ sk.tags_file_name se := by
  obtain ⟨hne, hsv⟩ := spec_new_ok_inv _ _ _ _ hv
  obtain ⟨-, hse⟩ := spec_new_ok_inv _ _ _ _ he
  subst hsv hse
  cases sk with
  | Git lib commit_hash =>
      exact string_append_left_ne (lib ++ "-" ++ commit_hash ++ ".")
        "vi" "emacs" (by decide)
  | CratesIo lib version =>
      exact string_append_left_ne (lib ++ "-" ++ version ++ ".")
        "vi" "emacs" (by decide)
  | Path lib p => exact hne

/-- C6 witness: the default rusty-tags names under a Git identity. -/
theorem flavor_switch_names_differ_witness :
    (SourceKind.Git "serde" "abc123").tags_file_name specVi ≠
      (SourceKind.Git "serde" "abc123").tags_file_name specEmacs :=
  flavor_switch_names_differ "rusty-tags.vi" "rusty-tags.emacs"
    specVi specEmacs rfl rfl (SourceKind.Git "serde" "abc123")

/-- C7 counterexample: the claim also asserts that a filesystem error
other than not-found is propagated to the caller as a warning.  The code
returns a bare Boolean: at a concrete artifact whose marker probe answers
permission denied (code 13), the call returns false, and the complete
observable result equals the one produced when the marker is simply
absent — the underlying error is discarded, not propagated in any form. -/
theorem probe_error_counterexample :
    (Tags.new ["proj"] ["proj", "rusty-tags.vi"] true).is_up_to_date
      specVi fsPermDenied = false ∧
    (Tags.new ["proj"] ["proj", "rusty-tags.vi"] true).is_up_to_date
      specVi fsPermDenied =
    (Tags.new ["proj"] ["proj", "rusty-tags.vi"] true).is_up_to_date
      specVi fsNoMarker := by
  constructor <;> rfl

/-- C7 amended: when the marker probe answers a filesystem error other
than not-found, is_up_to_date treats the artifact as not up to date
(forcing regeneration), but the error is silently discarded by the
is_file probe: the result is identical to the one under a state in which
the marker is simply absent, so nothing is propagated to the caller. -/
theorem probe_error_forces_regeneration (src tf : PathBuf) (c : Bool)
    (spec : TagsSpec) (fs : Fs) (code : Nat) :
    (Tags.new src tf c).is_up_to_date spec
      (fun p => if p = push src spec.file_name then FsAnswer.err code
                else fs p) = false ∧
    (Tags.new src tf c).is_up_to_date spec
      (fun p => if p = push src spec.file_name then FsAnswer.err code
                else fs p) =
    (Tags.new src tf c).is_up_to_date spec
      (fun p => if p = push src spec.file_name then FsAnswer.notFound
                else fs p) := by
  simp only [is_up_to_date_eq]
  simp [Tags.new, is_file]

/-- C8: a successfully constructed spec carries no engine flag when its
kind is Vi and the explicit emacs-mode switch -e when its kind is
Emacs. -/
theorem constructed_spec_ctags_option (kind : TagsKind) (v e : String)
    (s : TagsSpec) (h : TagsSpec.new kind v e = Except.ok s) :
    (s.kind = TagsKind.Vi → s.ctags_option = none) ∧
    (s.kind = TagsKind.Emacs → s.ctags_option = some "-e") := by
  obtain ⟨-, hs⟩ := spec_new_ok_inv _ _ _ _ h
  subst hs
  cases kind <;> simp [TagsSpec.ctags_option]

/-- C8 witness: a spec constructed with kind Emacs. -/
theorem constructed_spec_ctags_option_witness :
    (specEmacs.kind = TagsKind.Vi → specEmacs.ctags_option = none) ∧
    (specEmacs.kind = TagsKind.Emacs →
      specEmacs.ctags_option = some "-e") :=
  constructed_spec_ctags_option TagsKind.Emacs
    "rusty-tags.vi" "rusty-tags.emacs" specEmacs rfl

/-- C9: a Git identity and a CratesIo identity with the same library name
whose commit hash equals the version string receive the identical tags
file name under every spec, although the two identities are distinct
values of different variants. -/
theorem git_cratesio_collision (lib s : String) (spec : TagsSpec) :
    (SourceKind.Git lib s).tags_file_name spec =
      (SourceKind.CratesIo lib s).tags_file_name spec ∧
    SourceKind.Git lib s ≠ SourceKind.CratesIo lib s :=
  ⟨rfl, fun h => nomatch h⟩

/-- C10: is_up_to_date never reads the tags_file field — two artifacts
agreeing on src_dir and cached but with arbitrary tags_file values give
the same result under the same spec and filesystem; and for a cached
artifact the path probed is exactly the flavor file name pushed onto
src_dir, never the artifact tags_file path. -/
theorem up_to_date_ignores_tags_file (src tf1 tf2 : PathBuf) (c : Bool)
    (spec : TagsSpec) (fs : Fs) :
    (Tags.new src tf1 c).is_up_to_date spec fs =
      (Tags.new src tf2 c).is_up_to_date spec fs ∧
    (Tags.new src tf1 true).is_up_to_date spec fs =
      is_file fs (push src spec.file_name) := by
  refine ⟨rfl, ?_⟩
  rw [is_up_to_date_eq]
  simp [Tags.new]

end RustyTags
